import Mathlib

/-!
Verification of the cluster-provisioning core of `flambe/cluster/gcp.py`
(`GCPCluster`): plan construction (node names and creation requests),
the concurrent launcher `load_all_instances`, and the assembly of created
nodes into typed instance records.

The embedding is shallow: the cloud provider (`self.conn.create_node`) is a
pure capability `Provisioner : CreateNodeRequest → Except ProviderError
NodeHandle`; thread-pool concurrency is modelled by a completion schedule
parameter (the order in which submitted tasks finish), with `executor.map`
reassembling results by submission index as the Python executor does.
-/

namespace Gcp

/-- Result of a successful `create_node` call: the provider's node record.
Only the address lists are read by the source (`node.public_ips[0]`,
`node.private_ips[0]`); `providerId` stands for the node's identity. -/
structure NodeHandle where
  publicIps : List String
  privateIps : List String
  providerId : String
deriving DecidableEq, Repr

/-- A provider-level failure (`GoogleBaseError` in the source), carrying the
provider's code and message. -/
structure ProviderError where
  code : String
  message : String
deriving DecidableEq, Repr

/-- The error `load_all_instances` raises: `ClusterError(f"Error creating
nodes. Original error: {e}")`. It carries only a message string. -/
structure ClusterError where
  message : String
deriving DecidableEq, Repr

/-- Modelled from the spec: `InvalidPlanError` (bad input counts), raised by
the plan validation of the base `Cluster` constructor
(`flambe/cluster/cluster.py`, not present under src/). -/
structure InvalidPlanError where
  message : String
deriving DecidableEq, Repr

/-- Role tag of an instance record: `OrchestratorInstance`,
`CPUFactoryInstance` or `GPUFactoryInstance` in the source. -/
inductive Role where
  | Orchestrator
  | CPUFactory
  | GPUFactory
deriving DecidableEq, Repr

/-- An instance record as built by the source's instance constructors:
`CPUFactoryInstance(node.public_ips[0], node.private_ips[0], self.username,
self.key, self.config, self.debug)`. The opaque session objects
`self.config` and `self.debug`, passed through unchanged, are omitted. -/
structure Instance where
  host : String
  privateHost : String
  username : String
  key : String
  role : Role
deriving DecidableEq, Repr

/-- The arguments of one `conn.create_node` call. The keyword options
appear only on the GPU-factory call in the source, so they are optional
here (absent = not passed). -/
structure CreateNodeRequest where
  name : String
  size : String
  image : String
  exAcceleratorType : Option String
  exAcceleratorCount : Option Nat
  exOnHostMaintenance : Option String
  exAutomaticRestart : Option Bool
deriving DecidableEq, Repr

/-- The fields of a `GCPCluster` read by the launcher. `factoriesNum` is an
integer (the source never validates it, so nonpositive values are
representable); `factoryImage` and `orchestratorImage` are the resolved
images after the constructor's defaulting; `username` and `key` are the
ssh credentials stored by the base constructor; `gpuType = none` means no
accelerator was configured. -/
structure GCPClusterConfig where
  name : String
  factoryType : String
  factoriesNum : Int
  orchestratorType : String
  username : String
  key : String
  factoryImage : String
  orchestratorImage : String
  gpuType : Option String
  gpuCount : Nat
deriving DecidableEq, Repr

/-- The two attributes `load_all_instances` assigns (`self.orchestrator`,
`self.factories`); `none` models the attribute not (yet) assigned. -/
structure ClusterState where
  orchestrator : Option Instance
  factories : Option (List Instance)
deriving DecidableEq, Repr

/-- The provider capability: `self.conn.create_node`, which returns a node
or raises a provider error. -/
def Provisioner : Type := CreateNodeRequest → Except ProviderError NodeHandle

/-- Source `get_orchestrator_name`. -/
def get_orchestrator_name (c : GCPClusterConfig) : String :=
  c.name ++ "-orchestrator"

/-- Source `get_factory_basename`. -/
def get_factory_basename (c : GCPClusterConfig) : String :=
  c.name ++ "-factory"

/-- The factory name list built in `load_all_instances`:
`[self.get_factory_basename() + f'-{i+1}' for i in range(self.factories_num)]`.
Python's `range` of a nonpositive number is empty, as is `Int.toNat`. -/
def factoryNames (c : GCPClusterConfig) : List String :=
  (List.range c.factoriesNum.toNat).map
    (fun i => get_factory_basename c ++ "-" ++ toString (i + 1))

/-- The orchestrator's `create_node` call: name, orchestrator machine type
and orchestrator image, no keyword options. -/
def orchestratorRequest (c : GCPClusterConfig) : CreateNodeRequest :=
  { name := get_orchestrator_name c
    size := c.orchestratorType
    image := c.orchestratorImage
    exAcceleratorType := none
    exAcceleratorCount := none
    exOnHostMaintenance := none
    exAutomaticRestart := none }

/-- The `create_node` call inside `_create_cpu_factory`: positional
arguments only. -/
def cpuFactoryRequest (c : GCPClusterConfig) (name : String) : CreateNodeRequest :=
  { name := name
    size := c.factoryType
    image := c.factoryImage
    exAcceleratorType := none
    exAcceleratorCount := none
    exOnHostMaintenance := none
    exAutomaticRestart := none }

/-- The `create_node` call inside `_create_gpu_factory`, with the
accelerator keyword options. -/
def gpuFactoryRequest (c : GCPClusterConfig) (name : String) : CreateNodeRequest :=
  { name := name
    size := c.factoryType
    image := c.factoryImage
    exAcceleratorType := c.gpuType
    exAcceleratorCount := some c.gpuCount
    exOnHostMaintenance := some "TERMINATE"
    exAutomaticRestart := some true }

/-- The request a factory creation issues, following the branch in
`load_all_instances` (`if self.gpu_type is None` use the CPU path, else the
GPU path). -/
def factoryRequestOf (c : GCPClusterConfig) (name : String) : CreateNodeRequest :=
  match c.gpuType with
  | none => cpuFactoryRequest c name
  | some _ => gpuFactoryRequest c name

/-- The instance record built from a created node: first public address,
first private address, stored ssh username and key, and the role tag of
the constructor used. `headD ""` models the source's `[0]` on the
well-formed (nonempty) address lists the provider returns. -/
def mkInstance (c : GCPClusterConfig) (role : Role) (node : NodeHandle) : Instance :=
  { host := node.publicIps.headD ""
    privateHost := node.privateIps.headD ""
    username := c.username
    key := c.key
    role := role }

/-- Source `_create_cpu_factory`: create the node, wrap it in a
`CPUFactoryInstance`; a provider error propagates. -/
def create_cpu_factory (c : GCPClusterConfig) (provision : Provisioner)
    (name : String) : Except ProviderError Instance :=
  (provision (cpuFactoryRequest c name)).map (mkInstance c Role.CPUFactory)

/-- Source `_create_gpu_factory`: create the node with accelerator options,
wrap it in a `GPUFactoryInstance`; a provider error propagates. -/
def create_gpu_factory (c : GCPClusterConfig) (provision : Provisioner)
    (name : String) : Except ProviderError Instance :=
  (provision (gpuFactoryRequest c name)).map (mkInstance c Role.GPUFactory)

/-- The task `executor.map` runs for one factory name: the CPU path when no
GPU type is configured, else the GPU path. -/
def factoryTask (c : GCPClusterConfig) (provision : Provisioner)
    (name : String) : Except ProviderError Instance :=
  match c.gpuType with
  | none => create_cpu_factory c provision name
  | some _ => create_gpu_factory c provision name

/-- The role every factory record of a plan gets, per the same branch. -/
def factoryRole (c : GCPClusterConfig) : Role :=
  match c.gpuType with
  | none => Role.CPUFactory
  | some _ => Role.GPUFactory

/-- The full sequence of `create_node` calls a launch issues, in submission
order: the orchestrator first, then the factories in index order. -/
def clusterPlanRequests (c : GCPClusterConfig) : List CreateNodeRequest :=
  orchestratorRequest c :: (factoryNames c).map (factoryRequestOf c)

/-- Modelled from the spec: the plan validation of the base `Cluster`
constructor (`flambe/cluster/cluster.py`, which is not present under src/;
`GCPCluster.__init__` forwards `factories_num` to it): "Fails with
`InvalidPlanError` if `factoryCount <= 0`." On a valid count the plan is
the request sequence the launcher issues. -/
def buildClusterPlan (c : GCPClusterConfig) :
    Except InvalidPlanError (List CreateNodeRequest) :=
  if c.factoriesNum ≤ 0 then
    .error { message := "factories_num must be positive" }
  else
    .ok (clusterPlanRequests c)

/-- Execution model of `ThreadPoolExecutor.map`: every task is submitted at
once; a completion schedule lists task indices in the real-time order in
which they finish (each task's value is a pure function of its input). The
pairs record which task produced which value. -/
def completionLog {α β : Type} (f : α → β) (xs : List α)
    (schedule : List Nat) : List (Nat × β) :=
  schedule.filterMap (fun j => (xs[j]?).map (fun x => (j, f x)))

/-- The iterator `executor.map` returns: position `i` yields task `i`'s
value once available (`none` would mean task `i` never completes, which the
executor's shutdown excludes for any covering schedule). Results are placed
by submission index, never by arrival order. -/
def executorMap {α β : Type} (f : α → β) (xs : List α)
    (schedule : List Nat) : List (Option β) :=
  (List.range xs.length).map (fun i => (completionLog f xs schedule).lookup i)

/-- The semantics of the comprehension `[f for f in future_factories]`:
yield values in order until the first task that raised, whose error
propagates. -/
def collectResults {E A : Type} : List (Except E A) → Except E (List A)
  | [] => .ok []
  | .error e :: _ => .error e
  | .ok x :: rest =>
    match collectResults rest with
    | .error e => .error e
    | .ok xs => .ok (x :: xs)

/-- The first error of a result list, in index order. -/
def firstError {E A : Type} : List (Except E A) → Option E
  | [] => none
  | .error e :: _ => some e
  | .ok _ :: rest => firstError rest

/-- The per-index denotation of the factory batch: task `i` computes
`factoryTask` on factory name `i`. -/
def factoryResults (c : GCPClusterConfig) (provision : Provisioner) :
    List (Except ProviderError Instance) :=
  (factoryNames c).map (factoryTask c provision)

/-- How `load_all_instances` renders a caught `GoogleBaseError`:
`ClusterError(f"Error creating nodes. Original error: {e}")`. The provider
error's string form is its message. -/
def clusterErrorOf (e : ProviderError) : ClusterError :=
  { message := "Error creating nodes. Original error: " ++ e.message }

/-- Source `load_all_instances` as a state transformer. The orchestrator
call and all factory tasks are submitted concurrently; each is a pure
function of its request, so the run is determined by the provisioner (the
schedule-independence of the factory batch is proved below from
`executorMap`). The body then: waits on the orchestrator future (a
provider error is wrapped and raised with no attribute assigned), assigns
`self.orchestrator`, consumes the factory iterator (the first factory
error in index order is wrapped and raised, leaving `self.factories`
unassigned), and finally assigns `self.factories`. -/
def load_all_instances (c : GCPClusterConfig) (provision : Provisioner)
    (st : ClusterState) : ClusterState × Except ClusterError Unit :=
  match provision (orchestratorRequest c) with
  | .error e => (st, .error (clusterErrorOf e))
  | .ok onode =>
    let st1 : ClusterState :=
      { st with orchestrator := some (mkInstance c Role.Orchestrator onode) }
    match collectResults (factoryResults c provision) with
    | .error e => (st1, .error (clusterErrorOf e))
    | .ok facs => ({ st1 with factories := some facs }, .ok ())

/-! Concrete sample data used to instantiate the theorems below. -/

/-- The empty starting state: neither attribute assigned yet. -/
def st0 : ClusterState := { orchestrator := none, factories := none }

/-- A sample CPU-only cluster with two factories, name prefix `t`. -/
def cSample : GCPClusterConfig :=
  { name := "t"
    factoryType := "n1-standard-4"
    factoriesNum := 2
    orchestratorType := "n1-standard-2"
    username := "ubuntu"
    key := "/home/ubuntu/.ssh/id_rsa"
    factoryImage := "img-factory"
    orchestratorImage := "img-orch"
    gpuType := none
    gpuCount := 1 }

/-- A one-factory CPU cluster, name prefix `c`. -/
def cSingle : GCPClusterConfig := { cSample with name := "c", factoriesNum := 1 }

/-- The same cluster under two different name prefixes. -/
def cNameA : GCPClusterConfig := { cSample with name := "a", factoriesNum := 1 }

/-- See `cNameA`. -/
def cNameB : GCPClusterConfig := { cSample with name := "b", factoriesNum := 1 }

/-- A GPU cluster: one factory with four K80 accelerators. -/
def cGpu : GCPClusterConfig :=
  { cSample with
    name := "g"
    factoriesNum := 1
    gpuType := some "nvidia-tesla-k80"
    gpuCount := 4 }

/-- A cluster whose factory count is zero. -/
def cZero : GCPClusterConfig := { cSample with factoriesNum := 0 }

/-- Sample created nodes. -/
def h0 : NodeHandle :=
  { publicIps := ["35.0.0.1"], privateIps := ["10.0.0.1"], providerId := "node-orch" }

/-- See `h0`. -/
def h1 : NodeHandle :=
  { publicIps := ["35.0.0.2"], privateIps := ["10.0.0.2"], providerId := "node-f1" }

/-- See `h0`. -/
def h2 : NodeHandle :=
  { publicIps := ["35.0.0.3"], privateIps := ["10.0.0.3"], providerId := "node-f2" }

/-- Two distinct factory nodes, used to compare runs whose orphaned
handles differ. -/
def hA : NodeHandle :=
  { publicIps := ["35.0.1.1"], privateIps := ["10.0.1.1"], providerId := "node-a" }

/-- See `hA`. -/
def hB : NodeHandle :=
  { publicIps := ["35.0.1.2"], privateIps := ["10.0.1.2"], providerId := "node-b" }

/-- Sample provider errors. -/
def e0 : ProviderError := { code := "QUOTA_EXCEEDED", message := "quota exceeded" }

/-- See `e0`. -/
def e1 : ProviderError := { code := "QUOTA_EXCEEDED", message := "no quota for factory 1" }

/-- See `e0`. -/
def e2 : ProviderError := { code := "ZONE_EXHAUSTED", message := "no capacity for factory 2" }

/-- A provisioner for `cSample` on which every call succeeds. -/
def pAllOk : Provisioner := fun r =>
  if r.name = "t-orchestrator" then .ok h0
  else if r.name = "t-factory-1" then .ok h1
  else .ok h2

/-- A provisioner for `cSample` on which both factory calls fail (with
different errors) and the orchestrator call succeeds. -/
def pBothFail : Provisioner := fun r =>
  if r.name = "t-orchestrator" then .ok h0
  else if r.name = "t-factory-1" then .error e1
  else .error e2

/-- A provisioner for `cSample` on which only factory 1 fails. -/
def pOneFail : Provisioner := fun r =>
  if r.name = "t-orchestrator" then .ok h0
  else if r.name = "t-factory-1" then .error e1
  else .ok h2

/-- A provisioner for `cSingle` on which the orchestrator call fails and
the factory call yields `hA`. -/
def pOrchFailA : Provisioner := fun r =>
  if r.name = "c-orchestrator" then .error e0 else .ok hA

/-- Like `pOrchFailA` but the factory call yields `hB`. -/
def pOrchFailB : Provisioner := fun r =>
  if r.name = "c-orchestrator" then .error e0 else .ok hB

/-- A provisioner on which every call fails with `e0`. -/
def pAllFail : Provisioner := fun _ => .error e0

/-- A provisioner on which every call yields `h1`. -/
def pAnyOk : Provisioner := fun _ => .ok h1

/-- The state a fully successful launch of `cSample` under `pAllOk`
produces. -/
def stDone : ClusterState :=
  { orchestrator := some (mkInstance cSample Role.Orchestrator h0)
    factories := some [mkInstance cSample Role.CPUFactory h1,
      mkInstance cSample Role.CPUFactory h2] }

section ExecutorLemmas

variable {α β : Type}

theorem completionLog_lookup (f : α → β) (xs : List α) (schedule : List Nat)
    (i : Nat) (x : α) (hx : xs[i]? = some x) (hmem : i ∈ schedule) :
    (completionLog f xs schedule).lookup i = some (f x) := by
  induction schedule with
  | nil => cases hmem
  | cons j rest ih =>
    by_cases hji : j = i
    · subst hji
      simp [completionLog, List.filterMap_cons, hx, List.lookup]
    · have hmem' : i ∈ rest := by
        cases hmem with
        | head => exact absurd rfl hji
        | tail _ h => exact h
      cases hj : xs[j]? with
      | none =>
        simpa [completionLog, List.filterMap_cons, hj] using ih hmem'
      | some y =>
        have hne : (i == j) = false := beq_false_of_ne (Ne.symm hji)
        simpa [completionLog, List.filterMap_cons, hj, List.lookup, hne]
          using ih hmem'

theorem executorMap_getElem (f : α → β) (xs : List α) (schedule : List Nat)
    (hcover : ∀ i, i < xs.length → i ∈ schedule)
    (i : Nat) (x : α) (hx : xs[i]? = some x) :
    (executorMap f xs schedule)[i]? = some (some (f x)) := by
  have hi : i < xs.length := by
    rcases List.getElem?_eq_some.mp hx with ⟨h, _⟩
    exact h
  unfold executorMap
  rw [List.getElem?_map, List.getElem?_range hi]
  simp [completionLog_lookup f xs schedule i x hx (hcover i hi)]

/-- For any covering schedule the iterator is exactly the per-index
denotation: each slot holds its own task's value, independent of arrival
order. -/
theorem executorMap_eq_map (f : α → β) (xs : List α) (schedule : List Nat)
    (hcover : ∀ i, i < xs.length → i ∈ schedule) :
    executorMap f xs schedule = xs.map (fun x => some (f x)) := by
  apply List.ext_getElem?
  intro i
  by_cases hi : i < xs.length
  · have hx : xs[i]? = some xs[i] := List.getElem?_eq_getElem hi
    rw [executorMap_getElem f xs schedule hcover i xs[i] hx,
      List.getElem?_map, hx]
    rfl
  · have h1 : (executorMap f xs schedule)[i]? = none := by
      apply List.getElem?_eq_none
      simp [executorMap, Nat.le_of_not_lt hi]
    have h2 : (xs.map (fun x => some (f x)))[i]? = none := by
      apply List.getElem?_eq_none
      simp [Nat.le_of_not_lt hi]
    rw [h1, h2]

end ExecutorLemmas

section CollectLemmas

variable {E A : Type}

theorem collectResults_ok_iff (l : List (Except E A)) (xs : List A) :
    collectResults l = .ok xs ↔ l = xs.map Except.ok := by
  induction l generalizing xs with
  | nil =>
    cases xs <;> simp [collectResults]
  | cons r rest ih =>
    cases r with
    | error e =>
      cases xs <;> simp [collectResults]
    | ok x =>
      constructor
      · intro h
        cases hrec : collectResults rest with
        | error e => simp [collectResults, hrec] at h
        | ok ys =>
          simp only [collectResults, hrec] at h
          cases h
          simp [(ih ys).mp hrec]
      · intro h
        cases xs with
        | nil => simp at h
        | cons y ys =>
          simp only [List.map_cons, List.cons.injEq] at h
          obtain ⟨h1, h2⟩ := h
          cases h1
          simp [collectResults, (ih ys).mpr h2]

theorem collectResults_error_iff (l : List (Except E A)) (e : E) :
    collectResults l = .error e ↔ firstError l = some e := by
  induction l with
  | nil => simp [collectResults, firstError]
  | cons r rest ih =>
    cases r with
    | error e0 => simp [collectResults, firstError]
    | ok x =>
      cases hrec : collectResults rest with
      | error e0 => simp [collectResults, firstError, hrec, ← ih]
      | ok ys => simp [collectResults, firstError, hrec, ← ih, hrec]

theorem except_map_eq_ok {B : Type} (f : A → B) (r : Except E A) (y : B)
    (h : r.map f = .ok y) : ∃ x, r = .ok x ∧ y = f x := by
  cases r with
  | error e => simp [Except.map] at h
  | ok x =>
    refine ⟨x, rfl, ?_⟩
    simpa [Except.map] using h.symm

end CollectLemmas

theorem factoryNames_length (c : GCPClusterConfig) :
    (factoryNames c).length = c.factoriesNum.toNat := by
  simp [factoryNames]

theorem factoryNames_getElem (c : GCPClusterConfig) (i : Nat)
    (hi : i < c.factoriesNum.toNat) :
    (factoryNames c)[i]? =
      some (get_factory_basename c ++ "-" ++ toString (i + 1)) := by
  simp [factoryNames, List.getElem?_map, List.getElem?_range hi]

/-- A factory task succeeds exactly when its `create_node` call does, and
then yields the instance record of the created node tagged with the plan's
factory role. -/
theorem factoryTask_ok (c : GCPClusterConfig) (provision : Provisioner)
    (name : String) (inst : Instance)
    (h : factoryTask c provision name = .ok inst) :
    ∃ handle, provision (factoryRequestOf c name) = .ok handle ∧
      inst = mkInstance c (factoryRole c) handle := by
  cases hg : c.gpuType with
  | none =>
    simp only [factoryTask, hg, create_cpu_factory] at h
    obtain ⟨handle, hh, hy⟩ := except_map_eq_ok _ _ _ h
    exact ⟨handle, by simpa [factoryRequestOf, hg] using hh,
      by simpa [factoryRole, hg] using hy⟩
  | some t =>
    simp only [factoryTask, hg, create_gpu_factory] at h
    obtain ⟨handle, hh, hy⟩ := except_map_eq_ok _ _ _ h
    exact ⟨handle, by simpa [factoryRequestOf, hg] using hh,
      by simpa [factoryRole, hg] using hy⟩

theorem factoryTask_of_ok (c : GCPClusterConfig) (provision : Provisioner)
    (name : String) (handle : NodeHandle)
    (h : provision (factoryRequestOf c name) = .ok handle) :
    factoryTask c provision name = .ok (mkInstance c (factoryRole c) handle) := by
  cases hg : c.gpuType with
  | none =>
    rw [factoryRequestOf, hg] at h
    simp [factoryTask, hg, create_cpu_factory, h, Except.map, factoryRole]
  | some t =>
    rw [factoryRequestOf, hg] at h
    simp [factoryTask, hg, create_gpu_factory, h, Except.map, factoryRole]

theorem factoryRequestOf_name (c : GCPClusterConfig) (name : String) :
    (factoryRequestOf c name).name = name := by
  cases hg : c.gpuType <;>
    simp [factoryRequestOf, hg, cpuFactoryRequest, gpuFactoryRequest]

/-- C5: for every `factoriesNum = n > 0` the launch issues exactly `n + 1`
`create_node` calls: the orchestrator, named `{name}-orchestrator`, first,
then the factories named `{name}-factory-1` up to `{name}-factory-n`, in
that numeric order. -/
theorem cluster_plan_shape (c : GCPClusterConfig) (n : Nat)
    (hn : c.factoriesNum = (n : Int)) (_hpos : 0 < n) :
    (clusterPlanRequests c).length = n + 1 ∧
    (clusterPlanRequests c)[0]? = some (orchestratorRequest c) ∧
    (orchestratorRequest c).name = c.name ++ "-orchestrator" ∧
    ∀ i : Nat, i < n →
      ∃ r, (clusterPlanRequests c)[i + 1]? = some r ∧
        r.name = c.name ++ "-factory-" ++ toString (i + 1) := by
  have htn : c.factoriesNum.toNat = n := by rw [hn]; exact Int.toNat_natCast n
  refine ⟨?_, by simp [clusterPlanRequests], rfl, ?_⟩
  · simp [clusterPlanRequests, factoryNames_length, htn]
  · intro i hi
    have hi' : i < c.factoriesNum.toNat := htn ▸ hi
    refine ⟨factoryRequestOf c (get_factory_basename c ++ "-" ++ toString (i + 1)),
      ?_, ?_⟩
    · simp only [clusterPlanRequests, List.getElem?_cons_succ, List.getElem?_map,
        factoryNames_getElem c i hi', Option.map_some']
    · rw [factoryRequestOf_name]
      simp [get_factory_basename, String.append_assoc]

/-- Witness for C5 at `cSample` (`factoriesNum = 2`). -/
theorem cluster_plan_shape_witness :
    (cSample.factoriesNum = ((2 : Nat) : Int) ∧ 0 < 2) ∧
    ((clusterPlanRequests cSample).length = 2 + 1 ∧
      (clusterPlanRequests cSample)[0]? = some (orchestratorRequest cSample) ∧
      (orchestratorRequest cSample).name = cSample.name ++ "-orchestrator" ∧
      ∀ i : Nat, i < 2 →
        ∃ r, (clusterPlanRequests cSample)[i + 1]? = some r ∧
          r.name = cSample.name ++ "-factory-" ++ toString (i + 1)) :=
  ⟨⟨rfl, by decide⟩, cluster_plan_shape cSample 2 rfl (by decide)⟩

/-- C6 (spec-modelled): building a plan with `factoryCount <= 0` fails with
`InvalidPlanError` instead of yielding a (possibly empty) factory spec
list. The validation lives in the base `Cluster` constructor, which is not
under src/, so it is modelled from the spec in `buildClusterPlan`. -/
theorem invalid_plan_rejected (c : GCPClusterConfig)
    (h : c.factoriesNum ≤ 0) :
    buildClusterPlan c = .error { message := "factories_num must be positive" } := by
  simp [buildClusterPlan, h]

/-- Witness for C6 at `cZero` (`factoriesNum = 0`). -/
theorem invalid_plan_rejected_witness :
    cZero.factoriesNum ≤ 0 ∧
    buildClusterPlan cZero = .error { message := "factories_num must be positive" } :=
  ⟨by decide, invalid_plan_rejected cZero (by decide)⟩

/-- C10: the orchestrator's `create_node` call always uses the orchestrator
machine type and orchestrator image and passes no accelerator options, for
every configuration (a configured GPU type included); the accelerator
options are passed exactly on factory creation calls. -/
theorem orchestrator_request_no_accelerator (c : GCPClusterConfig) :
    (orchestratorRequest c).size = c.orchestratorType ∧
    (orchestratorRequest c).image = c.orchestratorImage ∧
    (orchestratorRequest c).exAcceleratorType = none ∧
    (orchestratorRequest c).exAcceleratorCount = none ∧
    (orchestratorRequest c).exOnHostMaintenance = none ∧
    (orchestratorRequest c).exAutomaticRestart = none ∧
    ∀ name, (factoryRequestOf c name).exAcceleratorType = c.gpuType := by
  refine ⟨rfl, rfl, rfl, rfl, rfl, rfl, ?_⟩
  intro name
  cases hg : c.gpuType <;>
    simp [factoryRequestOf, hg, cpuFactoryRequest, gpuFactoryRequest]

/-- C7: every factory of a plan is created and recorded as a CPU factory
when no GPU type is configured, and as a GPU factory whose `create_node`
call carries the accelerator type and count when one is; the same branch
applies to every factory name. -/
theorem factory_role_uniform (c : GCPClusterConfig) (provision : Provisioner)
    (name : String) (inst : Instance)
    (h : factoryTask c provision name = .ok inst) :
    (c.gpuType = none →
      inst.role = Role.CPUFactory ∧
      (factoryRequestOf c name).exAcceleratorType = none ∧
      (factoryRequestOf c name).exAcceleratorCount = none) ∧
    (∀ t, c.gpuType = some t →
      inst.role = Role.GPUFactory ∧
      (factoryRequestOf c name).exAcceleratorType = some t ∧
      (factoryRequestOf c name).exAcceleratorCount = some c.gpuCount) := by
  obtain ⟨handle, _, hinst⟩ := factoryTask_ok c provision name inst h
  constructor
  · intro hg
    subst hinst
    simp [mkInstance, factoryRole, factoryRequestOf, hg, cpuFactoryRequest]
  · intro t hg
    subst hinst
    simp [mkInstance, factoryRole, factoryRequestOf, hg, gpuFactoryRequest]

/-- Witness for C7 at the GPU cluster `cGpu`. -/
theorem factory_role_uniform_witness :
    factoryTask cGpu pAnyOk "g-factory-1"
        = .ok (mkInstance cGpu Role.GPUFactory h1) ∧
    (mkInstance cGpu Role.GPUFactory h1).role = Role.GPUFactory ∧
    (factoryRequestOf cGpu "g-factory-1").exAcceleratorType
        = some "nvidia-tesla-k80" ∧
    (factoryRequestOf cGpu "g-factory-1").exAcceleratorCount = some 4 :=
  ⟨rfl,
    ((factory_role_uniform cGpu pAnyOk "g-factory-1"
        (mkInstance cGpu Role.GPUFactory h1) rfl).2 "nvidia-tesla-k80" rfl)⟩

/-- C1: when every `create_node` call succeeds, the launcher's factory
result at index `i` is the instance built from creating the factory spec
at index `i`, for every completion schedule that finishes all submitted
tasks — the iterator reassembles results by submission index, not by
arrival order. -/
theorem factory_handles_index_aligned (c : GCPClusterConfig)
    (provision : Provisioner) (schedule : List Nat)
    (hcover : ∀ i, i < (factoryNames c).length → i ∈ schedule)
    (i : Nat) (name : String)
    (hname : (factoryNames c)[i]? = some name)
    (handle : NodeHandle)
    (hok : provision (factoryRequestOf c name) = .ok handle) :
    (executorMap (factoryTask c provision) (factoryNames c) schedule)[i]? =
      some (some (.ok (mkInstance c (factoryRole c) handle))) := by
  rw [executorMap_getElem (factoryTask c provision) (factoryNames c) schedule
    hcover i name hname]
  rw [factoryTask_of_ok c provision name handle hok]

/-- Witness for C1 at `cSample` with the reversed completion schedule
`[1, 0]`: factory 2 finishes first, yet slot 0 holds factory 1's node. -/
theorem factory_handles_index_aligned_witness :
    (∀ i, i < (factoryNames cSample).length → i ∈ [1, 0]) ∧
    (factoryNames cSample)[0]? = some "t-factory-1" ∧
    pAllOk (factoryRequestOf cSample "t-factory-1") = .ok h1 ∧
    (executorMap (factoryTask cSample pAllOk) (factoryNames cSample) [1, 0])[0]? =
      some (some (.ok (mkInstance cSample (factoryRole cSample) h1))) :=
  ⟨by decide, by decide, rfl,
    factory_handles_index_aligned cSample pAllOk [1, 0] (by decide) 0
      "t-factory-1" (by decide) h1 rfl⟩

/-- C2 counterexample: with both of `cSample`'s factories failing (`e1` on
factory 1, a different error `e2` on factory 2), the raised error is
identical to the error of a run in which factory 2 succeeded — the
launcher reports only the first factory failure in index order, so the
error cannot list every failed spec with its cause. -/
theorem factory_failures_not_aggregated :
    pBothFail (cpuFactoryRequest cSample "t-factory-2") = .error e2 ∧
    pOneFail (cpuFactoryRequest cSample "t-factory-2") = .ok h2 ∧
    e1 ≠ e2 ∧
    (load_all_instances cSample pBothFail st0).2 = .error (clusterErrorOf e1) ∧
    (load_all_instances cSample pBothFail st0).2 =
      (load_all_instances cSample pOneFail st0).2 :=
  ⟨rfl, rfl, by decide, rfl, rfl⟩

/-- C2 (amended): if the orchestrator call succeeds and one or more factory
calls fail, the launcher fails with a single `ClusterError` wrapping only
the first failed factory's provider error in index order; the other
failures are not reported. (The executor's shutdown does wait for all
submitted calls; their outcomes simply do not reach the error.) -/
theorem factory_failure_first_error_only (c : GCPClusterConfig)
    (provision : Provisioner) (st : ClusterState)
    (onode : NodeHandle) (e : ProviderError)
    (ho : provision (orchestratorRequest c) = .ok onode)
    (hf : firstError (factoryResults c provision) = some e) :
    load_all_instances c provision st =
      ({ st with orchestrator := some (mkInstance c Role.Orchestrator onode) },
        .error (clusterErrorOf e)) := by
  have hc : collectResults (factoryResults c provision) = .error e :=
    (collectResults_error_iff _ _).mpr hf
  simp [load_all_instances, ho, hc]

/-- Witness for the amended C2 at `cSample` with `pBothFail`. -/
theorem factory_failure_first_error_only_witness :
    pBothFail (orchestratorRequest cSample) = .ok h0 ∧
    firstError (factoryResults cSample pBothFail) = some e1 ∧
    load_all_instances cSample pBothFail st0 =
      ({ st0 with orchestrator := some (mkInstance cSample Role.Orchestrator h0) },
        .error (clusterErrorOf e1)) :=
  ⟨rfl, rfl, factory_failure_first_error_only cSample pBothFail st0 h0 e1 rfl rfl⟩

/-- C3 counterexample: two runs on `cSingle` in which the orchestrator call
fails with the same provider error while the (successful, hence orphaned)
factory node differs — `hA` in one run, `hB ≠ hA` in the other — produce
the very same outcome, error value included. No function of the raised
error can return the orphaned-handle list, so the error does not expose
it. -/
theorem provision_error_hides_orphans :
    hA ≠ hB ∧
    pOrchFailA (cpuFactoryRequest cSingle "c-factory-1") = .ok hA ∧
    pOrchFailB (cpuFactoryRequest cSingle "c-factory-1") = .ok hB ∧
    load_all_instances cSingle pOrchFailA st0 =
      load_all_instances cSingle pOrchFailB st0 ∧
    (load_all_instances cSingle pOrchFailA st0).2 = .error (clusterErrorOf e0) :=
  ⟨by decide, rfl, rfl, rfl, rfl⟩

/-- C3 (amended): every provisioning failure is reported as a
`ClusterError` holding nothing but a message rendered from one underlying
provider error; no orphaned-handle list (and no handle at all) is part of
the error. Rollback data, when any, is only what `load_all_instances` left
assigned on the cluster state. -/
theorem provision_error_message_only (c : GCPClusterConfig)
    (provision : Provisioner) (st : ClusterState) (err : ClusterError)
    (h : (load_all_instances c provision st).2 = .error err) :
    ∃ e : ProviderError, err = clusterErrorOf e := by
  unfold load_all_instances at h
  cases ho : provision (orchestratorRequest c) with
  | error e =>
    rw [ho] at h
    simp only at h
    exact ⟨e, (Except.error.inj h).symm⟩
  | ok onode =>
    rw [ho] at h
    cases hc : collectResults (factoryResults c provision) with
    | error e =>
      rw [hc] at h
      simp only at h
      exact ⟨e, (Except.error.inj h).symm⟩
    | ok facs =>
      rw [hc] at h
      simp at h

/-- Witness for the amended C3 at `cSingle` with `pOrchFailA`. -/
theorem provision_error_message_only_witness :
    (load_all_instances cSingle pOrchFailA st0).2 = .error (clusterErrorOf e0) ∧
    ∃ e : ProviderError, clusterErrorOf e0 = clusterErrorOf e :=
  ⟨rfl, provision_error_message_only cSingle pOrchFailA st0 (clusterErrorOf e0) rfl⟩

/-- C4 counterexample: two clusters that differ in their orchestrator spec
(name `a-orchestrator` versus `b-orchestrator`), whose orchestrator calls
fail with the same provider error, raise the very same `ClusterError` —
the error wraps the provider error but not the orchestrator spec. -/
theorem orchestrator_spec_not_in_error :
    (orchestratorRequest cNameA).name ≠ (orchestratorRequest cNameB).name ∧
    pAllFail (orchestratorRequest cNameA) = .error e0 ∧
    pAllFail (orchestratorRequest cNameB) = .error e0 ∧
    (load_all_instances cNameA pAllFail st0).2 =
      (load_all_instances cNameB pAllFail st0).2 :=
  ⟨by decide, rfl, rfl, rfl⟩

/-- C4 (amended): if the orchestrator call fails, the launcher fails
immediately — whatever the factory calls return — with a `ClusterError`
wrapping the provider error's message; the raw provider error is never
surfaced (the failure channel's type is `ClusterError`). The orchestrator
spec, however, is not part of the error. -/
theorem orchestrator_failure_wrapped (c : GCPClusterConfig)
    (provision : Provisioner) (st : ClusterState) (e : ProviderError)
    (h : provision (orchestratorRequest c) = .error e) :
    load_all_instances c provision st = (st, .error (clusterErrorOf e)) := by
  simp [load_all_instances, h]

/-- Witness for the amended C4 at `cNameA` with `pAllFail`. -/
theorem orchestrator_failure_wrapped_witness :
    pAllFail (orchestratorRequest cNameA) = .error e0 ∧
    load_all_instances cNameA pAllFail st0 = (st0, .error (clusterErrorOf e0)) :=
  ⟨rfl, orchestrator_failure_wrapped cNameA pAllFail st0 e0 rfl⟩

/-- C9: `load_all_instances` is not atomic on factory failure. If the
orchestrator call succeeds and some factory call then fails, the
orchestrator attribute has already been assigned the created orchestrator
instance when the wrapped error is raised, while the factories attribute
keeps its prior value; when the orchestrator call itself fails, the whole
state is left unchanged. -/
theorem load_partial_state (c : GCPClusterConfig) (provision : Provisioner)
    (st : ClusterState) :
    (∀ onode e, provision (orchestratorRequest c) = .ok onode →
      firstError (factoryResults c provision) = some e →
      (load_all_instances c provision st).1.orchestrator
          = some (mkInstance c Role.Orchestrator onode) ∧
      (load_all_instances c provision st).1.factories = st.factories ∧
      (load_all_instances c provision st).2 = .error (clusterErrorOf e)) ∧
    (∀ e, provision (orchestratorRequest c) = .error e →
      (load_all_instances c provision st).1 = st) := by
  constructor
  · intro onode e ho hf
    have hc : collectResults (factoryResults c provision) = .error e :=
      (collectResults_error_iff _ _).mpr hf
    simp [load_all_instances, ho, hc]
  · intro e ho
    simp [load_all_instances, ho]

/-- Witness for C9: `pOneFail` (orchestrator created, factory 1 fails)
leaves the orchestrator assigned and the factories attribute untouched;
`pAllFail` (orchestrator fails) leaves the state unchanged. -/
theorem load_partial_state_witness :
    pOneFail (orchestratorRequest cSample) = .ok h0 ∧
    firstError (factoryResults cSample pOneFail) = some e1 ∧
    ((load_all_instances cSample pOneFail st0).1.orchestrator
        = some (mkInstance cSample Role.Orchestrator h0) ∧
      (load_all_instances cSample pOneFail st0).1.factories = st0.factories ∧
      (load_all_instances cSample pOneFail st0).2 = .error (clusterErrorOf e1)) ∧
    (load_all_instances cSample pAllFail st0).1 = st0 :=
  ⟨rfl, rfl, (load_partial_state cSample pOneFail st0).1 h0 e1 rfl rfl,
    (load_partial_state cSample pAllFail st0).2 e0 rfl⟩

/-- C8: on a fully successful launch, the assigned orchestrator record and
every factory record carry the first public and first private address of
the node the corresponding `create_node` call returned, together with the
stored ssh username and key; the factory records sit at the index of their
originating spec, and each record's role tag is the plan's role for that
spec. -/
theorem launch_success_topology (c : GCPClusterConfig)
    (provision : Provisioner) (st st' : ClusterState)
    (h : load_all_instances c provision st = (st', .ok ())) :
    (∃ onode : NodeHandle, provision (orchestratorRequest c) = .ok onode ∧
      st'.orchestrator = some
        ({ host := onode.publicIps.headD ""
           privateHost := onode.privateIps.headD ""
           username := c.username
           key := c.key
           role := Role.Orchestrator } : Instance)) ∧
    (∃ facs : List Instance, st'.factories = some facs ∧
      facs.length = (factoryNames c).length ∧
      ∀ (i : Nat) (name : String), (factoryNames c)[i]? = some name →
        ∃ handle : NodeHandle, provision (factoryRequestOf c name) = .ok handle ∧
          facs[i]? = some
            ({ host := handle.publicIps.headD ""
               privateHost := handle.privateIps.headD ""
               username := c.username
               key := c.key
               role := factoryRole c } : Instance)) := by
  unfold load_all_instances at h
  cases ho : provision (orchestratorRequest c) with
  | error e => rw [ho] at h; simp at h
  | ok onode =>
    rw [ho] at h
    cases hc : collectResults (factoryResults c provision) with
    | error e => rw [hc] at h; simp at h
    | ok facs =>
      rw [hc] at h
      simp only [Prod.mk.injEq] at h
      obtain ⟨hst, -⟩ := h
      subst hst
      have hmap : factoryResults c provision = facs.map Except.ok :=
        (collectResults_ok_iff _ _).mp hc
      have hlen : facs.length = (factoryNames c).length := by
        have := congrArg List.length hmap
        simpa [factoryResults] using this.symm
      constructor
      · exact ⟨onode, rfl, rfl⟩
      refine ⟨facs, rfl, hlen, ?_⟩
      intro i name hname
      have hi : i < (factoryNames c).length := by
        rcases List.getElem?_eq_some.mp hname with ⟨hlt, -⟩
        exact hlt
      have hres : (factoryResults c provision)[i]? =
          some (factoryTask c provision name) := by
        simp [factoryResults, List.getElem?_map, hname]
      have hfi : i < facs.length := hlen ▸ hi
      have hfacs : facs[i]? = some (facs.get ⟨i, hfi⟩) := List.getElem?_eq_getElem hfi
      have htask : factoryTask c provision name = .ok (facs.get ⟨i, hfi⟩) := by
        rw [hmap] at hres
        rw [List.getElem?_map, hfacs] at hres
        simpa using hres.symm
      obtain ⟨handle, hh, hinst⟩ := factoryTask_ok c provision name _ htask
      refine ⟨handle, hh, ?_⟩
      rw [hfacs, hinst]
      rfl

/-- Witness for C8 at `cSample` with `pAllOk`. -/
theorem launch_success_topology_witness :
    load_all_instances cSample pAllOk st0 = (stDone, .ok ()) ∧
    ((∃ onode : NodeHandle, pAllOk (orchestratorRequest cSample) = .ok onode ∧
      stDone.orchestrator = some
        ({ host := onode.publicIps.headD ""
           privateHost := onode.privateIps.headD ""
           username := cSample.username
           key := cSample.key
           role := Role.Orchestrator } : Instance)) ∧
    (∃ facs : List Instance, stDone.factories = some facs ∧
      facs.length = (factoryNames cSample).length ∧
      ∀ (i : Nat) (name : String), (factoryNames cSample)[i]? = some name →
        ∃ handle : NodeHandle, pAllOk (factoryRequestOf cSample name) = .ok handle ∧
          facs[i]? = some
            ({ host := handle.publicIps.headD ""
               privateHost := handle.privateIps.headD ""
               username := cSample.username
               key := cSample.key
               role := factoryRole cSample } : Instance))) :=
  ⟨rfl, launch_success_topology cSample pAllOk st0 stDone rfl⟩
end Gcp
